import Mathlib

/-!
Verification of the deep-research web orchestrator (`simple_web_app.py`).

This file gives a shallow embedding of the core program logic:

* the Correction Engine (`classify_error`), the pure classification of the
  `(error code, error message)` pair of a failed run (source lines 284-328);
* the Report Writer (`create_research_summary`), modelled as a pure
  function from a finalized message to the content of the file
  (source lines 106-126);
* the Session Orchestrator (`run_research_session`), modelled as a
  deterministic state machine driven by a list of externally supplied
  turn inputs (run outcomes, poll observations, final messages, handoff
  events), returning the final session status, a trace of remote-side
  effects, and the exit reason of the loop (source lines 162-403);
* the `POST /api/start_research` handler (`start_research`,
  source lines 421-452).

Machine strings are Lean `String`s; the Python `in` substring test is
embedded as an executable list-based search; Python truthiness of lists
and strings is made explicit at each use site.
-/

/-! ## String utilities (Python `in`, `strip`, `lower`) -/

/-- `isPre n h` decides whether the character list `n` is an initial
segment of `h` (helper for the substring test). -/
def isPre : List Char → List Char → Bool
  | [], _ => true
  | _ :: _, [] => false
  | a :: as, b :: bs => a = b && isPre as bs

/-- `hasSub n h` decides whether `n` occurs as a contiguous segment of
`h` (helper for the substring test). -/
def hasSub (needle : List Char) : List Char → Bool
  | [] => isPre needle []
  | c :: cs => isPre needle (c :: cs) || hasSub needle cs

/-- Embedding of the Python test `needle in haystack` on strings. -/
def strContainsSub (haystack needle : String) : Bool :=
  hasSub needle.toList haystack.toList

/-- Embedding of the Python method `str.strip()` (drop leading and trailing
whitespace), written over the character list so that it evaluates inside
the kernel. -/
def pyStrip (s : String) : String :=
  ⟨((s.data.dropWhile Char.isWhitespace).reverse.dropWhile Char.isWhitespace).reverse⟩

/-- Embedding of the Python method `str.lower()` (ASCII case fold, which is all
the source compares), written over the character list. -/
def pyLower (s : String) : String :=
  ⟨s.data.map Char.toLower⟩

/-! ## Correction Engine (source lines 284-328)

`run.last_error` is a dictionary; `error_code` is the optional string under
the key `code` and `error_message` the string under the key `message`,
defaulting to the empty string.  The engine is the branch structure of source lines 292-328. -/

/-- Result of classifying the error of a failed run. -/
inductive CorrectionResult where
  | retryWithCorrection (instruction : String)
  | retryVerbatim
  | nonRecoverable
  deriving DecidableEq, Repr

/-- Corrective instruction for the wrong-parameter-count case
(source line 294). -/
def paramCountCorrection : String :=
  "You previously failed to call the deep_research tool because you provided the wrong number of parameters. Please try again, and ONLY use the \x27title\x27 and \x27prompt\x27 parameters for the tool call. Make sure the parameter values are properly formatted strings without special characters."

/-- Corrective instruction for the parse/unmatched formatting case
(source lines 296-304). -/
def formattingCorrection : String :=
  "You previously failed to call the deep_research tool due to a parsing error. Please ensure you:\n1. Only use \x27title\x27 and \x27prompt\x27 parameters\n2. Properly format all parameter values as strings\n3. Avoid special characters like unmatched parentheses, quotes, or brackets\n4. Use simple, clean text for both title and prompt\nPlease try calling the tool again with corrected formatting."

/-- Generic corrective instruction for any other tool-server error
(source lines 306-311). -/
def genericToolCorrection : String :=
  "There was an error with the deep_research tool. Please try again with:\n- Only \x27title\x27 and \x27prompt\x27 parameters\n- Simple, clean text without special formatting\n- Proper string formatting"

/-- The transient-server-fault phrase recognized at source line 321. -/
def transientPhrase : String := "Sorry, something went wrong"

/-- The Correction Engine: classification of the
`(error code, error message)` pair of a failed run, following source lines 292-328.
`code = some "tool_server_error"` always yields a corrective retry, with
the instruction chosen by message content; `code = some "server_error"`
with the transient phrase yields a verbatim retry; everything else is
non-recoverable. -/
def classify_error (code : Option String) (msg : String) : CorrectionResult :=
  if code = some "tool_server_error" then
    if strContainsSub msg "too many values to unpack" then
      .retryWithCorrection paramCountCorrection
    else if strContainsSub msg "could not be parsed" || strContainsSub msg "unmatched" then
      .retryWithCorrection formattingCorrection
    else
      .retryWithCorrection genericToolCorrection
  else if code = some "server_error" && strContainsSub msg transientPhrase then
    .retryVerbatim
  else
    .nonRecoverable

/-! ## Report Writer (source lines 106-126) -/

/-- A URL citation attached to an assistant message: `url_citation.title`
(optional in the service model; Python falls back on any falsy value)
and `url_citation.url`. -/
structure MsgCite where
  title : Option String
  url : String
  deriving DecidableEq, Repr

/-- The displayed title of a citation: `ann.url_citation.title or url`
(source line 121); Python `or` falls back when the title is `None` or
the empty string. -/
def citeTitle (c : MsgCite) : String :=
  match c.title with
  | none => c.url
  | some t => if t = "" then c.url else t

/-- The fields of a finalized assistant message used by the Report
Writer: the `text_messages` values and the `url_citation_annotations`
list (named `citations` here). -/
structure ResearchMsg where
  texts : List String
  citations : List MsgCite
  deriving DecidableEq, Repr

/-- The (title, url) pairs emitted into the references section, in
order: each citation whose URL is not in `seen` contributes one pair and
adds its URL to `seen` (the `seen_urls` loop of source lines 118-124). -/
def emittedRefs : List MsgCite → List String → List (String × String)
  | [], _ => []
  | c :: cs, seen =>
    if c.url ∈ seen then emittedRefs cs seen
    else (citeTitle c, c.url) :: emittedRefs cs (c.url :: seen)

/-- One reference line, `- [title](url)` plus newline (source line 123). -/
def refLine (p : String × String) : String :=
  "- [" ++ p.1 ++ "](" ++ p.2 ++ ")\n"

/-- The text written inside the `## References` block (source
lines 118-124). -/
def citeLines (cs : List MsgCite) (seen : List String) : String :=
  String.join ((emittedRefs cs seen).map refLine)

/-- The full content of the report file written by
`create_research_summary` (source lines 112-124): the stripped text
segments joined by blank lines, then, only when the citation list is
nonempty, the references header and one line per first-seen URL. -/
def create_research_summary (m : ResearchMsg) : String :=
  let text_summary := String.intercalate "\n\n" (m.texts.map pyStrip)
  text_summary ++
    (if m.citations ≠ [] then "\n\n## References\n" ++ citeLines m.citations [] else "")

/-- `create_research_summary` guarded on a missing message: Python
returns without writing any file when `message` is falsy
(source lines 108-110). -/
def create_research_summary_opt : Option ResearchMsg → Option String
  | none => none
  | some m => some (create_research_summary m)

/-- First-seen deduplication of a list, written independently of the
accumulator style: keep the head, drop its later duplicates. -/
def firstSeenUniq : List String → List String
  | [] => []
  | u :: us => u :: firstSeenUniq (us.filter fun v => v ≠ u)
termination_by l => l.length
decreasing_by
  simp only [List.length_cons]
  exact Nat.lt_succ_of_le (List.length_filter_le _ _)

/-! ## Session State and orchestrator data model (source lines 94-100, 162-403) -/

/-- One entry of the Transcript Store message list (the
timestamp field is opaque to every property considered and is omitted). -/
structure TranscriptMsg where
  role : String
  content : String
  deriving DecidableEq, Repr

/-- The process-wide Session State dictionary `status`. -/
structure SessionStatus where
  is_running : Bool
  messages : List TranscriptMsg
  waiting_for_input : Bool
  error : Option String
  result_file : Option String
  deriving DecidableEq, Repr

/-- The `status` value at module load and as reset by the
`/api/start_research` handler (source lines 94-100 and 437-443). -/
def resetStatus : SessionStatus :=
  { is_running := false, messages := [], waiting_for_input := false,
    error := none, result_file := none }

/-- The loop-local variables of the orchestrator (source lines 232-236). -/
structure LoopState where
  user_message_content : Option String
  agent_response_text : String
  current_retries : Nat
  last_message_id : Option String
  deriving DecidableEq, Repr

/-- A remote assistant message as observed by the orchestrator: its id,
its text segments and its URL citations. -/
structure ThreadMsg where
  id : String
  texts : List String
  citations : List MsgCite
  deriving DecidableEq, Repr

/-- Terminal status of one remote run, as supplied by the environment:
`completed`, `failed` with the error code/message pair, or any other
terminal status string (e.g. `cancelled`), which the loop ignores. -/
inductive RunOutcome where
  | completed
  | failed (code : Option String) (msg : String)
  | otherStatus (s : String)
  deriving DecidableEq, Repr

/-- Outcome of one blocking `message_queue.get(timeout=300)`: either a
human reply arrived in time, or the 300-second timeout elapsed. -/
inductive WaitResult where
  | received (msg : String)
  | timeout
  deriving DecidableEq, Repr

/-- The environment input to one iteration of the main loop: the new
assistant messages observed while polling, the terminal run outcome,
the latest assistant message fetched afterwards (if any), and the
handoff-channel outcome should the iteration block for input. -/
structure TurnInput where
  pollEvents : List ThreadMsg
  outcome : RunOutcome
  finalMsg : Option ThreadMsg
  wait : WaitResult
  deriving DecidableEq, Repr

/-- Remote-side and file-side effects of the orchestrator, traced in
order of occurrence. -/
inductive Effect where
  | createAgent
  | createThread
  | createMessage (content : String)
  | createRun (forcedTools : Bool)
  | waitForInput
  | writeReport (path : String) (content : String)
  | deleteAgent
  | deleteThread
  | clearRunning
  deriving DecidableEq, Repr

/-- How the main loop ended: `maxRetries` (3-strike cap, source
line 241), `nonRecoverable` (unrecognized run error, line 328),
`finalized` (report written, line 348), `userExited` (exit/quit,
line 367), `inputTimeout` (queue.Empty, line 370). -/
inductive ExitReason where
  | maxRetries
  | nonRecoverable
  | finalized
  | userExited
  | inputTimeout
  deriving DecidableEq, Repr

/-- The sentinel marker checked by `in` at source lines 253 and 350. -/
def sentinelMarker : String := "start_research_task"

/-- The retry budget `max_retries = 3` (source line 235). -/
def maxRetries : Nat := 3

/-- Result of the polling phase: updated session status and loop-local
variables. -/
structure PollResult where
  st : SessionStatus
  ls : LoopState
  deriving DecidableEq, Repr

/-- Result of one loop iteration (or of the remaining loop): updated
session status and loop variables, the effects emitted, and the exit
reason when the loop ended (`none`: the loop would continue). -/
structure StepResult where
  st : SessionStatus
  ls : LoopState
  effs : List Effect
  exit : Option ExitReason
  deriving DecidableEq, Repr

/-- Result of a whole orchestrator session: final Session State, the
full effect trace, and how the loop ended. -/
structure SessionResult where
  st : SessionStatus
  effs : List Effect
  exit : Option ExitReason
  deriving DecidableEq, Repr

/-- One observation of `fetch_and_print_new_agent_response` plus the
follow-up refetch (source lines 267-275): a message with a new id is
appended to the transcript and becomes the current assistant response
text; a repeated id changes nothing. -/
def pollStep (st : SessionStatus) (ls : LoopState) (m : ThreadMsg) : PollResult :=
  if ls.last_message_id = some m.id then { st := st, ls := ls }
  else
    let text := String.intercalate "\n" m.texts
    { st := { st with messages := st.messages ++ [⟨"assistant", text⟩] },
      ls := { ls with last_message_id := some m.id, agent_response_text := text } }

/-- The cumulative effect of the polling loop on the transcript and the
loop-local variables (source lines 263-277), run outcome aside. -/
def pollFold (st : SessionStatus) (ls : LoopState) : List ThreadMsg → PollResult
  | [] => { st := st, ls := ls }
  | m :: ms =>
    let p := pollStep st ls m
    pollFold p.st p.ls ms

/-- The continuation decision (source lines 350-372): without the
sentinel in the current assistant text, set `waiting_for_input`, block
on the handoff channel with the 300-second timeout, and on a reply
record it (exiting on `exit`/`quit`); on timeout exit the loop.  With
the sentinel present, clear the outgoing content and loop. -/
def contDecision (st : SessionStatus) (ls : LoopState) (wait : WaitResult) : StepResult :=
  if strContainsSub ls.agent_response_text sentinelMarker = false then
    let st := { st with waiting_for_input := true }
    match wait with
    | .received m =>
      let st := { st with
        messages := st.messages ++ [⟨"user", m⟩],
        waiting_for_input := false }
      let ls := { ls with user_message_content := some m }
      if pyLower m = "exit" ∨ pyLower m = "quit" then
        { st := st, ls := ls, effs := [Effect.waitForInput], exit := some .userExited }
      else
        { st := st, ls := ls, effs := [Effect.waitForInput], exit := none }
    | .timeout =>
      { st := st, ls := ls, effs := [Effect.waitForInput], exit := some .inputTimeout }
  else
    { st := st, ls := { ls with user_message_content := none }, effs := [], exit := none }

/-- Refresh of the loop-local variables from the refetched latest
assistant message (source lines 334-338): the assistant text becomes the
join of its segments and, when the id changed, it becomes the last seen. -/
def refreshLs (ls : LoopState) : Option ThreadMsg → LoopState
  | some m =>
    { ls with
      agent_response_text := String.intercalate "\n" m.texts,
      last_message_id :=
        if ls.last_message_id = some m.id then ls.last_message_id else some m.id }
  | none => ls

/-- The tail of a loop iteration once the run did not fail (source
lines 330-372): refetch the latest assistant message, finalize when it
carries citations (write the report, record its path, clear
`waiting_for_input`), otherwise take the continuation decision. -/
def afterEval (resultName : String) (st : SessionStatus) (ls : LoopState)
    (fm : Option ThreadMsg) (wait : WaitResult) : StepResult :=
  match fm with
  | some m =>
    if m.citations ≠ [] then
      { st := { st with result_file := some resultName, waiting_for_input := false },
        ls := refreshLs ls (some m),
        effs := [Effect.writeReport resultName (create_research_summary ⟨m.texts, m.citations⟩)],
        exit := some .finalized }
    else
      contDecision st (refreshLs ls (some m)) wait
  | none => contDecision st (refreshLs ls none) wait

/-- The effects of the submission phase of one iteration (source
lines 243-261): post the pending outgoing content, if any, then create a
run, forcing the research tool definitions exactly when the current
assistant text contains the sentinel. -/
def stepPreEffs (ls : LoopState) : List Effect :=
  (match ls.user_message_content with
   | some c => [Effect.createMessage c]
   | none => []) ++
  [Effect.createRun (strContainsSub ls.agent_response_text sentinelMarker)]

/-- One iteration of the main `while True` body after the retry-cap
check (source lines 243-372): post any pending outgoing content, create
a run (forcing the research tool definitions exactly when the current
assistant text contains the sentinel), poll, then branch on the run
outcome — `completed` resets the retry counter; `failed` increments it
and consults the Correction Engine (corrective retry, verbatim retry, or
non-recoverable exit); any other status falls through. -/
def stepTurn (resultName : String) (st : SessionStatus) (ls : LoopState)
    (t : TurnInput) : StepResult :=
  let preEffs := stepPreEffs ls
  let p := pollFold st ls t.pollEvents
  match t.outcome with
  | .completed =>
    let r := afterEval resultName p.st { p.ls with current_retries := 0 } t.finalMsg t.wait
    { r with effs := preEffs ++ r.effs }
  | .failed code msg =>
    let ls2 := { p.ls with current_retries := p.ls.current_retries + 1 }
    match classify_error code msg with
    | .retryWithCorrection instr =>
      { st := p.st, ls := { ls2 with user_message_content := none, agent_response_text := "" },
        effs := preEffs ++ [Effect.createMessage instr], exit := none }
    | .retryVerbatim =>
      { st := p.st, ls := { ls2 with user_message_content := none, agent_response_text := "" },
        effs := preEffs, exit := none }
    | .nonRecoverable =>
      { st := p.st, ls := ls2, effs := preEffs, exit := some .nonRecoverable }
  | .otherStatus _ =>
    let r := afterEval resultName p.st p.ls t.finalMsg t.wait
    { r with effs := preEffs ++ r.effs }

/-- The main loop (source lines 238-372): before consuming any
environment input, check the retry cap (line 239); then run one
iteration per `TurnInput`, stopping at the first iteration that exits
the loop.  `none` as exit reason means the supplied input list ended
with the loop still live. -/
def runTurns (resultName : String) :
    SessionStatus → LoopState → List TurnInput → StepResult
  | st, ls, [] =>
    if ls.current_retries ≥ maxRetries then
      { st := st, ls := ls, effs := [], exit := some .maxRetries }
    else
      { st := st, ls := ls, effs := [], exit := none }
  | st, ls, t :: ts' =>
    if ls.current_retries ≥ maxRetries then
      { st := st, ls := ls, effs := [], exit := some .maxRetries }
    else
      let s := stepTurn resultName st ls t
      match s.exit with
      | some _ => s
      | none =>
        let rest := runTurns resultName s.st s.ls ts'
        { rest with effs := s.effs ++ rest.effs }

/-- Session State as set by the orchestrator on entry (source
lines 171-183): mark running, reset the transcript, and record the
initial topic as the first user message. -/
def orchInit (stIn : SessionStatus) (topic : String) : SessionStatus :=
  { stIn with is_running := true, messages := [⟨"user", topic⟩] }

/-- The loop-local variables on entry to the main loop (source
lines 232-236). -/
def initLoopState (topic : String) : LoopState :=
  { user_message_content := some topic, agent_response_text := "",
    current_retries := 0, last_message_id := none }

/-- A whole orchestrator session along the no-exception path (source
lines 162-403, with every remote call succeeding): initialize Session
State, create the remote agent and thread, run the main loop on the
supplied turn inputs, then — on every exit path — attempt deletion of
the agent and the thread (inner `finally`, lines 379-394) and clear
`is_running` (outer `finally`, lines 400-403).  Note that none of the
loop `break` exits writes the status `error` field; only a raised exception
would (lines 374-377, 396-399). -/
def runSession (stIn : SessionStatus) (topic : String) (resultName : String)
    (turns : List TurnInput) : SessionResult :=
  let st0 := orchInit stIn topic
  let r := runTurns resultName st0 (initLoopState topic) turns
  { st := { r.st with is_running := false },
    effs := [Effect.createAgent, Effect.createThread] ++ r.effs ++
      [Effect.deleteAgent, Effect.deleteThread, Effect.clearRunning],
    exit := r.exit }

/-! ## API layer: the `/api/start_research` handler (source lines 421-452) -/

/-- The HTTP result of a handler: status code, the error body when
rejected, the success flag when accepted. -/
structure HttpResp where
  code : Nat
  errorMsg : Option String
  success : Bool
  deriving DecidableEq, Repr

/-- Side effects of an accepted `/api/start_research` request, in
order: enqueue the topic onto the handoff channel, then spawn the
orchestrator background thread (source lines 446-450). -/
inductive ApiEffect where
  | enqueueTopic (topic : String)
  | spawnOrchestrator
  deriving DecidableEq, Repr

/-- Result of an API handler: HTTP response, the `status` dictionary
after the handler body, and the side effects of the handler in order. -/
structure ApiResult where
  resp : HttpResp
  st : SessionStatus
  effs : List ApiEffect
  deriving DecidableEq, Repr

/-- The `POST /api/start_research` handler (source lines 421-452):
reject with 400 while a session is running; reject with 400 when the
stripped topic is empty; otherwise replace `status` by the reset value
(whose `is_running` is `False` — the spawned orchestrator sets it to
`True` itself at source line 172), enqueue the stripped topic and spawn
the worker thread. -/
def start_research (st : SessionStatus) (topic : Option String) : ApiResult :=
  if st.is_running then
    { resp := { code := 400, errorMsg := some "研究会话已在运行中", success := false },
      st := st, effs := [] }
  else
    let t := pyStrip (topic.getD "")
    if t = "" then
      { resp := { code := 400, errorMsg := some "请提供研究主题", success := false },
        st := st, effs := [] }
    else
      { resp := { code := 200, errorMsg := none, success := true },
        st := resetStatus,
        effs := [ApiEffect.enqueueTopic t, ApiEffect.spawnOrchestrator] }

/-- Whether an optional refetched message carries citations (the Python
truthiness test at source line 340). -/
def hasCitations : Option ThreadMsg → Bool
  | some m => !m.citations.isEmpty
  | none => false

/-- The forced-tools flags of the runs created in an effect list, in
order of creation. -/
def forcedFlags (effs : List Effect) : List Bool :=
  effs.filterMap fun e =>
    match e with
    | .createRun b => some b
    | _ => none

/-- A turn whose run failed with an error the Correction Engine
recognizes as retryable (corrective or verbatim). -/
def RecoverableFailure (t : TurnInput) : Prop :=
  ∃ code msg, t.outcome = .failed code msg ∧ classify_error code msg ≠ .nonRecoverable

/-- Concrete turn: run failed with the recognized transient server
fault (retried verbatim). -/
def transientFailTurn : TurnInput :=
  { pollEvents := [], outcome := .failed (some "server_error") "Sorry, something went wrong",
    finalMsg := none, wait := .timeout }

/-- Concrete turn: run failed with a malformed tool call (corrective
retry with the parameter-count instruction). -/
def toolFailTurn : TurnInput :=
  { pollEvents := [],
    outcome := .failed (some "tool_server_error") "too many values to unpack (expected 2)",
    finalMsg := none, wait := .timeout }

/-- Concrete turn: run failed with an unrecognized error (fatal). -/
def fatalFailTurn : TurnInput :=
  { pollEvents := [], outcome := .failed (some "rate_limit_exceeded") "Rate limit is exceeded.",
    finalMsg := none, wait := .timeout }

/-- Concrete turn: run completed, the assistant asked a clarifying
question (no citations), and no human reply arrived in time. -/
def questionTurn : TurnInput :=
  { pollEvents := [⟨"m1", ["Could you clarify the scope?"], []⟩], outcome := .completed,
    finalMsg := some ⟨"m1", ["Could you clarify the scope?"], []⟩, wait := .timeout }

/-- Concrete turn: run completed, the assistant asked a question and the
human replied in time. -/
def answeredTurn : TurnInput :=
  { pollEvents := [⟨"m1", ["Which decade interests you?"], []⟩], outcome := .completed,
    finalMsg := some ⟨"m1", ["Which decade interests you?"], []⟩,
    wait := .received "the 1990s" }

/-- A session status in which a session is currently running. -/
def runningStatus : SessionStatus :=
  { resetStatus with is_running := true }

/-- A loop state in which the previous assistant message contained the
sentinel marker. -/
def sentinelLoopState : LoopState :=
  { user_message_content := none,
    agent_response_text := "start_research_task: ready to begin",
    current_retries := 0, last_message_id := some "m0" }

/-! ## Helper lemmas on the orchestrator model -/

theorem pollStep_preserves (st : SessionStatus) (ls : LoopState) (m : ThreadMsg) :
    (pollStep st ls m).st.waiting_for_input = st.waiting_for_input ∧
    (pollStep st ls m).st.error = st.error ∧
    (pollStep st ls m).st.is_running = st.is_running ∧
    (pollStep st ls m).st.result_file = st.result_file ∧
    (pollStep st ls m).ls.current_retries = ls.current_retries ∧
    (pollStep st ls m).ls.user_message_content = ls.user_message_content := by
  unfold pollStep
  split <;> simp

theorem pollFold_preserves (ms : List ThreadMsg) :
    ∀ st ls, (pollFold st ls ms).st.waiting_for_input = st.waiting_for_input ∧
    (pollFold st ls ms).st.error = st.error ∧
    (pollFold st ls ms).st.is_running = st.is_running ∧
    (pollFold st ls ms).st.result_file = st.result_file ∧
    (pollFold st ls ms).ls.current_retries = ls.current_retries ∧
    (pollFold st ls ms).ls.user_message_content = ls.user_message_content := by
  induction ms with
  | nil => intro st ls; simp [pollFold]
  | cons m ms ih =>
    intro st ls
    simp only [pollFold]
    obtain ⟨h1, h2, h3, h4, h5, h6⟩ := ih (pollStep st ls m).st (pollStep st ls m).ls
    obtain ⟨g1, g2, g3, g4, g5, g6⟩ := pollStep_preserves st ls m
    exact ⟨h1.trans g1, h2.trans g2, h3.trans g3, h4.trans g4, h5.trans g5, h6.trans g6⟩

theorem contDecision_preserves (st : SessionStatus) (ls : LoopState) (w : WaitResult) :
    (contDecision st ls w).st.error = st.error ∧
    (contDecision st ls w).st.is_running = st.is_running ∧
    (contDecision st ls w).st.result_file = st.result_file ∧
    (contDecision st ls w).ls.current_retries = ls.current_retries ∧
    (contDecision st ls w).ls.agent_response_text = ls.agent_response_text ∧
    forcedFlags (contDecision st ls w).effs = [] := by
  cases w with
  | received m =>
    by_cases hs : strContainsSub ls.agent_response_text sentinelMarker = false
    · by_cases he : pyLower m = "exit" ∨ pyLower m = "quit" <;>
        simp [contDecision, hs, he, forcedFlags]
    · simp [contDecision, hs, forcedFlags]
  | timeout =>
    by_cases hs : strContainsSub ls.agent_response_text sentinelMarker = false <;>
      simp [contDecision, hs, forcedFlags]

theorem contDecision_timeout_waiting (st : SessionStatus) (ls : LoopState) (w : WaitResult) :
    (contDecision st ls w).exit = some ExitReason.inputTimeout →
    (contDecision st ls w).st.waiting_for_input = true := by
  cases w with
  | received m =>
    by_cases hs : strContainsSub ls.agent_response_text sentinelMarker = false
    · by_cases he : pyLower m = "exit" ∨ pyLower m = "quit" <;>
        simp [contDecision, hs, he]
    · simp [contDecision, hs]
  | timeout =>
    by_cases hs : strContainsSub ls.agent_response_text sentinelMarker = false <;>
      simp [contDecision, hs]

theorem contDecision_waiting_iff (st : SessionStatus) (ls : LoopState) (w : WaitResult)
    (h : st.waiting_for_input = false) :
    ((contDecision st ls w).st.waiting_for_input = true ↔
      (contDecision st ls w).exit = some ExitReason.inputTimeout) := by
  cases w with
  | received m =>
    by_cases hs : strContainsSub ls.agent_response_text sentinelMarker = false
    · by_cases he : pyLower m = "exit" ∨ pyLower m = "quit" <;>
        simp [contDecision, hs, he]
    · simp [contDecision, hs, h]
  | timeout =>
    by_cases hs : strContainsSub ls.agent_response_text sentinelMarker = false <;>
      simp [contDecision, hs, h]

theorem contDecision_exit_ne (st : SessionStatus) (ls : LoopState) (w : WaitResult) :
    (contDecision st ls w).exit ≠ some ExitReason.maxRetries ∧
    (contDecision st ls w).exit ≠ some ExitReason.nonRecoverable ∧
    (contDecision st ls w).exit ≠ some ExitReason.finalized := by
  cases w with
  | received m =>
    by_cases hs : strContainsSub ls.agent_response_text sentinelMarker = false
    · by_cases he : pyLower m = "exit" ∨ pyLower m = "quit" <;>
        simp [contDecision, hs, he]
    · simp [contDecision, hs]
  | timeout =>
    by_cases hs : strContainsSub ls.agent_response_text sentinelMarker = false <;>
      simp [contDecision, hs]

theorem refreshLs_preserves (ls : LoopState) (fm : Option ThreadMsg) :
    (refreshLs ls fm).current_retries = ls.current_retries ∧
    (refreshLs ls fm).user_message_content = ls.user_message_content := by
  cases fm <;> simp [refreshLs]

theorem afterEval_none (rn : String) (st : SessionStatus) (ls : LoopState) (w : WaitResult) :
    afterEval rn st ls none w = contDecision st (refreshLs ls none) w := rfl

theorem afterEval_some_nocite (rn : String) (st : SessionStatus) (ls : LoopState)
    (m : ThreadMsg) (w : WaitResult) (hc : m.citations = []) :
    afterEval rn st ls (some m) w = contDecision st (refreshLs ls (some m)) w := by
  simp [afterEval, hc]

theorem afterEval_some_cite (rn : String) (st : SessionStatus) (ls : LoopState)
    (m : ThreadMsg) (w : WaitResult) (hc : m.citations ≠ []) :
    afterEval rn st ls (some m) w =
      { st := { st with result_file := some rn, waiting_for_input := false },
        ls := refreshLs ls (some m),
        effs := [Effect.writeReport rn (create_research_summary ⟨m.texts, m.citations⟩)],
        exit := some .finalized } := by
  simp [afterEval, hc]

theorem afterEval_preserves (rn : String) (st : SessionStatus) (ls : LoopState)
    (fm : Option ThreadMsg) (w : WaitResult) :
    (afterEval rn st ls fm w).st.error = st.error ∧
    (afterEval rn st ls fm w).st.is_running = st.is_running ∧
    (afterEval rn st ls fm w).ls.current_retries = ls.current_retries ∧
    forcedFlags (afterEval rn st ls fm w).effs = [] := by
  cases fm with
  | none =>
    obtain ⟨h1, h2, _, h4, _, h6⟩ := contDecision_preserves st (refreshLs ls none) w
    obtain ⟨r1, _⟩ := refreshLs_preserves ls none
    rw [afterEval_none]
    exact ⟨h1, h2, h4.trans r1, h6⟩
  | some m =>
    by_cases hc : m.citations = []
    · obtain ⟨h1, h2, _, h4, _, h6⟩ := contDecision_preserves st (refreshLs ls (some m)) w
      obtain ⟨r1, _⟩ := refreshLs_preserves ls (some m)
      rw [afterEval_some_nocite rn st ls m w hc]
      exact ⟨h1, h2, h4.trans r1, h6⟩
    · obtain ⟨r1, _⟩ := refreshLs_preserves ls (some m)
      rw [afterEval_some_cite rn st ls m w hc]
      exact ⟨rfl, rfl, r1, rfl⟩

theorem afterEval_timeout_waiting (rn : String) (st : SessionStatus) (ls : LoopState)
    (fm : Option ThreadMsg) (w : WaitResult) :
    (afterEval rn st ls fm w).exit = some ExitReason.inputTimeout →
    (afterEval rn st ls fm w).st.waiting_for_input = true := by
  cases fm with
  | none =>
    rw [afterEval_none]
    exact contDecision_timeout_waiting st (refreshLs ls none) w
  | some m =>
    by_cases hc : m.citations = []
    · rw [afterEval_some_nocite rn st ls m w hc]
      exact contDecision_timeout_waiting st (refreshLs ls (some m)) w
    · rw [afterEval_some_cite rn st ls m w hc]
      intro h
      exact absurd h (by simp)

theorem afterEval_waiting_iff (rn : String) (st : SessionStatus) (ls : LoopState)
    (fm : Option ThreadMsg) (w : WaitResult) (h : st.waiting_for_input = false) :
    ((afterEval rn st ls fm w).st.waiting_for_input = true ↔
      (afterEval rn st ls fm w).exit = some ExitReason.inputTimeout) := by
  cases fm with
  | none =>
    rw [afterEval_none]
    exact contDecision_waiting_iff st (refreshLs ls none) w h
  | some m =>
    by_cases hc : m.citations = []
    · rw [afterEval_some_nocite rn st ls m w hc]
      exact contDecision_waiting_iff st (refreshLs ls (some m)) w h
    · rw [afterEval_some_cite rn st ls m w hc]
      simp

theorem afterEval_exit_ne (rn : String) (st : SessionStatus) (ls : LoopState)
    (fm : Option ThreadMsg) (w : WaitResult) :
    (afterEval rn st ls fm w).exit ≠ some ExitReason.maxRetries ∧
    (afterEval rn st ls fm w).exit ≠ some ExitReason.nonRecoverable := by
  cases fm with
  | none =>
    rw [afterEval_none]
    obtain ⟨h1, h2, _⟩ := contDecision_exit_ne st (refreshLs ls none) w
    exact ⟨h1, h2⟩
  | some m =>
    by_cases hc : m.citations = []
    · rw [afterEval_some_nocite rn st ls m w hc]
      obtain ⟨h1, h2, _⟩ := contDecision_exit_ne st (refreshLs ls (some m)) w
      exact ⟨h1, h2⟩
    · rw [afterEval_some_cite rn st ls m w hc]
      simp

theorem forcedFlags_append (a b : List Effect) :
    forcedFlags (a ++ b) = forcedFlags a ++ forcedFlags b := by
  simp [forcedFlags]

theorem stepPreEffs_forced (ls : LoopState) :
    forcedFlags (stepPreEffs ls) = [strContainsSub ls.agent_response_text sentinelMarker] := by
  unfold stepPreEffs
  cases ls.user_message_content <;> simp [forcedFlags]

theorem stepTurn_eq_completed (rn : String) (st : SessionStatus) (ls : LoopState)
    (t : TurnInput) (h : t.outcome = .completed) :
    stepTurn rn st ls t =
      { afterEval rn (pollFold st ls t.pollEvents).st
          { (pollFold st ls t.pollEvents).ls with current_retries := 0 } t.finalMsg t.wait with
        effs := stepPreEffs ls ++
          (afterEval rn (pollFold st ls t.pollEvents).st
            { (pollFold st ls t.pollEvents).ls with current_retries := 0 } t.finalMsg t.wait).effs } := by
  simp [stepTurn, h]

theorem stepTurn_eq_other (rn : String) (st : SessionStatus) (ls : LoopState)
    (t : TurnInput) (s : String) (h : t.outcome = .otherStatus s) :
    stepTurn rn st ls t =
      { afterEval rn (pollFold st ls t.pollEvents).st
          (pollFold st ls t.pollEvents).ls t.finalMsg t.wait with
        effs := stepPreEffs ls ++
          (afterEval rn (pollFold st ls t.pollEvents).st
            (pollFold st ls t.pollEvents).ls t.finalMsg t.wait).effs } := by
  simp [stepTurn, h]

theorem stepTurn_eq_failed_corr (rn : String) (st : SessionStatus) (ls : LoopState)
    (t : TurnInput) (code : Option String) (msg instr : String)
    (h : t.outcome = .failed code msg)
    (hcl : classify_error code msg = .retryWithCorrection instr) :
    stepTurn rn st ls t =
      { st := (pollFold st ls t.pollEvents).st,
        ls := { (pollFold st ls t.pollEvents).ls with
                current_retries := (pollFold st ls t.pollEvents).ls.current_retries + 1,
                user_message_content := none, agent_response_text := "" },
        effs := stepPreEffs ls ++ [Effect.createMessage instr],
        exit := none } := by
  simp [stepTurn, h, hcl]

theorem stepTurn_eq_failed_verbatim (rn : String) (st : SessionStatus) (ls : LoopState)
    (t : TurnInput) (code : Option String) (msg : String)
    (h : t.outcome = .failed code msg)
    (hcl : classify_error code msg = .retryVerbatim) :
    stepTurn rn st ls t =
      { st := (pollFold st ls t.pollEvents).st,
        ls := { (pollFold st ls t.pollEvents).ls with
                current_retries := (pollFold st ls t.pollEvents).ls.current_retries + 1,
                user_message_content := none, agent_response_text := "" },
        effs := stepPreEffs ls,
        exit := none } := by
  simp [stepTurn, h, hcl]

theorem stepTurn_eq_failed_fatal (rn : String) (st : SessionStatus) (ls : LoopState)
    (t : TurnInput) (code : Option String) (msg : String)
    (h : t.outcome = .failed code msg)
    (hcl : classify_error code msg = .nonRecoverable) :
    stepTurn rn st ls t =
      { st := (pollFold st ls t.pollEvents).st,
        ls := { (pollFold st ls t.pollEvents).ls with
                current_retries := (pollFold st ls t.pollEvents).ls.current_retries + 1 },
        effs := stepPreEffs ls,
        exit := some .nonRecoverable } := by
  simp [stepTurn, h, hcl]

theorem stepTurn_preserves (rn : String) (st : SessionStatus) (ls : LoopState) (t : TurnInput) :
    (stepTurn rn st ls t).st.error = st.error ∧
    (stepTurn rn st ls t).st.is_running = st.is_running ∧
    forcedFlags (stepTurn rn st ls t).effs =
      [strContainsSub ls.agent_response_text sentinelMarker] ∧
    (stepTurn rn st ls t).exit ≠ some ExitReason.maxRetries := by
  obtain ⟨_, p2, p3, _, _, _⟩ := pollFold_preserves t.pollEvents st ls
  rcases ht : t.outcome with _ | ⟨code, msg⟩ | s
  · rw [stepTurn_eq_completed rn st ls t ht]
    obtain ⟨a1, a2, _, a4⟩ := afterEval_preserves rn (pollFold st ls t.pollEvents).st
      { (pollFold st ls t.pollEvents).ls with current_retries := 0 } t.finalMsg t.wait
    obtain ⟨e1, _⟩ := afterEval_exit_ne rn (pollFold st ls t.pollEvents).st
      { (pollFold st ls t.pollEvents).ls with current_retries := 0 } t.finalMsg t.wait
    refine ⟨a1.trans p2, a2.trans p3, ?_, e1⟩
    show forcedFlags (stepPreEffs ls ++ _) = _
    rw [forcedFlags_append, stepPreEffs_forced, a4, List.append_nil]
  · rcases hcl : classify_error code msg with instr | _ | _
    · rw [stepTurn_eq_failed_corr rn st ls t code msg instr ht hcl]
      refine ⟨p2, p3, ?_, by simp⟩
      show forcedFlags (stepPreEffs ls ++ _) = _
      rw [forcedFlags_append, stepPreEffs_forced]
      simp [forcedFlags]
    · rw [stepTurn_eq_failed_verbatim rn st ls t code msg ht hcl]
      exact ⟨p2, p3, stepPreEffs_forced ls, by simp⟩
    · rw [stepTurn_eq_failed_fatal rn st ls t code msg ht hcl]
      exact ⟨p2, p3, stepPreEffs_forced ls, by simp⟩
  · rw [stepTurn_eq_other rn st ls t s ht]
    obtain ⟨a1, a2, _, a4⟩ := afterEval_preserves rn (pollFold st ls t.pollEvents).st
      (pollFold st ls t.pollEvents).ls t.finalMsg t.wait
    obtain ⟨e1, _⟩ := afterEval_exit_ne rn (pollFold st ls t.pollEvents).st
      (pollFold st ls t.pollEvents).ls t.finalMsg t.wait
    refine ⟨a1.trans p2, a2.trans p3, ?_, e1⟩
    show forcedFlags (stepPreEffs ls ++ _) = _
    rw [forcedFlags_append, stepPreEffs_forced, a4, List.append_nil]

theorem stepTurn_retries_completed (rn : String) (st : SessionStatus) (ls : LoopState)
    (t : TurnInput) (h : t.outcome = .completed) :
    (stepTurn rn st ls t).ls.current_retries = 0 := by
  rw [stepTurn_eq_completed rn st ls t h]
  obtain ⟨_, _, a3, _⟩ := afterEval_preserves rn (pollFold st ls t.pollEvents).st
    { (pollFold st ls t.pollEvents).ls with current_retries := 0 } t.finalMsg t.wait
  exact a3

theorem stepTurn_retries_failed (rn : String) (st : SessionStatus) (ls : LoopState)
    (t : TurnInput) (code : Option String) (msg : String) (h : t.outcome = .failed code msg) :
    (stepTurn rn st ls t).ls.current_retries = ls.current_retries + 1 := by
  obtain ⟨_, _, _, _, p5, _⟩ := pollFold_preserves t.pollEvents st ls
  rcases hcl : classify_error code msg with instr | _ | _
  · rw [stepTurn_eq_failed_corr rn st ls t code msg instr h hcl]
    simp [p5]
  · rw [stepTurn_eq_failed_verbatim rn st ls t code msg h hcl]
    simp [p5]
  · rw [stepTurn_eq_failed_fatal rn st ls t code msg h hcl]
    simp [p5]

theorem stepTurn_retries_other (rn : String) (st : SessionStatus) (ls : LoopState)
    (t : TurnInput) (s : String) (h : t.outcome = .otherStatus s) :
    (stepTurn rn st ls t).ls.current_retries = ls.current_retries := by
  rw [stepTurn_eq_other rn st ls t s h]
  obtain ⟨_, _, a3, _⟩ := afterEval_preserves rn (pollFold st ls t.pollEvents).st
    (pollFold st ls t.pollEvents).ls t.finalMsg t.wait
  obtain ⟨_, _, _, _, p5, _⟩ := pollFold_preserves t.pollEvents st ls
  exact a3.trans p5

theorem stepTurn_recoverable (rn : String) (st : SessionStatus) (ls : LoopState)
    (t : TurnInput) (code : Option String) (msg : String)
    (h : t.outcome = .failed code msg) (hcl : classify_error code msg ≠ .nonRecoverable) :
    (stepTurn rn st ls t).exit = none ∧
    (stepTurn rn st ls t).ls.agent_response_text = "" ∧
    (stepTurn rn st ls t).ls.user_message_content = none := by
  rcases hc : classify_error code msg with instr | _ | _
  · rw [stepTurn_eq_failed_corr rn st ls t code msg instr h hc]
    exact ⟨rfl, rfl, rfl⟩
  · rw [stepTurn_eq_failed_verbatim rn st ls t code msg h hc]
    exact ⟨rfl, rfl, rfl⟩
  · exact absurd hc hcl

theorem stepTurn_fatal (rn : String) (st : SessionStatus) (ls : LoopState)
    (t : TurnInput) (code : Option String) (msg : String)
    (h : t.outcome = .failed code msg) (hcl : classify_error code msg = .nonRecoverable) :
    (stepTurn rn st ls t).exit = some ExitReason.nonRecoverable := by
  rw [stepTurn_eq_failed_fatal rn st ls t code msg h hcl]

theorem stepTurn_timeout_waiting (rn : String) (st : SessionStatus) (ls : LoopState)
    (t : TurnInput) :
    (stepTurn rn st ls t).exit = some ExitReason.inputTimeout →
    (stepTurn rn st ls t).st.waiting_for_input = true := by
  rcases ht : t.outcome with _ | ⟨code, msg⟩ | s
  · rw [stepTurn_eq_completed rn st ls t ht]
    exact afterEval_timeout_waiting rn (pollFold st ls t.pollEvents).st
      { (pollFold st ls t.pollEvents).ls with current_retries := 0 } t.finalMsg t.wait
  · rcases hcl : classify_error code msg with instr | _ | _
    · rw [stepTurn_eq_failed_corr rn st ls t code msg instr ht hcl]
      intro hx
      exact absurd hx (by simp)
    · rw [stepTurn_eq_failed_verbatim rn st ls t code msg ht hcl]
      intro hx
      exact absurd hx (by simp)
    · rw [stepTurn_eq_failed_fatal rn st ls t code msg ht hcl]
      intro hx
      exact absurd hx (by simp)
  · rw [stepTurn_eq_other rn st ls t s ht]
    exact afterEval_timeout_waiting rn (pollFold st ls t.pollEvents).st
      (pollFold st ls t.pollEvents).ls t.finalMsg t.wait

theorem stepTurn_waiting_iff (rn : String) (st : SessionStatus) (ls : LoopState)
    (t : TurnInput) (h : st.waiting_for_input = false) :
    ((stepTurn rn st ls t).st.waiting_for_input = true ↔
      (stepTurn rn st ls t).exit = some ExitReason.inputTimeout) := by
  obtain ⟨p1, _, _, _, _, _⟩ := pollFold_preserves t.pollEvents st ls
  have hp : (pollFold st ls t.pollEvents).st.waiting_for_input = false := p1.trans h
  rcases ht : t.outcome with _ | ⟨code, msg⟩ | s
  · rw [stepTurn_eq_completed rn st ls t ht]
    exact afterEval_waiting_iff rn (pollFold st ls t.pollEvents).st
      { (pollFold st ls t.pollEvents).ls with current_retries := 0 } t.finalMsg t.wait hp
  · rcases hcl : classify_error code msg with instr | _ | _
    · rw [stepTurn_eq_failed_corr rn st ls t code msg instr ht hcl]
      simp [hp]
    · rw [stepTurn_eq_failed_verbatim rn st ls t code msg ht hcl]
      simp [hp]
    · rw [stepTurn_eq_failed_fatal rn st ls t code msg ht hcl]
      simp [hp]
  · rw [stepTurn_eq_other rn st ls t s ht]
    exact afterEval_waiting_iff rn (pollFold st ls t.pollEvents).st
      (pollFold st ls t.pollEvents).ls t.finalMsg t.wait hp

theorem runTurns_cap (rn : String) (st : SessionStatus) (ls : LoopState) (ts : List TurnInput)
    (h : ls.current_retries ≥ maxRetries) :
    runTurns rn st ls ts = { st := st, ls := ls, effs := [], exit := some .maxRetries } := by
  cases ts <;> simp [runTurns, h]

theorem runTurns_nil_live (rn : String) (st : SessionStatus) (ls : LoopState)
    (h : ¬ ls.current_retries ≥ maxRetries) :
    runTurns rn st ls [] = { st := st, ls := ls, effs := [], exit := none } := by
  simp [runTurns, h]

theorem runTurns_cons_exit (rn : String) (st : SessionStatus) (ls : LoopState)
    (t : TurnInput) (ts : List TurnInput) (r : ExitReason)
    (h : ¬ ls.current_retries ≥ maxRetries) (hx : (stepTurn rn st ls t).exit = some r) :
    runTurns rn st ls (t :: ts) = stepTurn rn st ls t := by
  simp [runTurns, h, hx]

theorem runTurns_cons_cont (rn : String) (st : SessionStatus) (ls : LoopState)
    (t : TurnInput) (ts : List TurnInput)
    (h : ¬ ls.current_retries ≥ maxRetries) (hx : (stepTurn rn st ls t).exit = none) :
    runTurns rn st ls (t :: ts) =
      { runTurns rn (stepTurn rn st ls t).st (stepTurn rn st ls t).ls ts with
        effs := (stepTurn rn st ls t).effs ++
          (runTurns rn (stepTurn rn st ls t).st (stepTurn rn st ls t).ls ts).effs } := by
  simp [runTurns, h, hx]

theorem runTurns_preserves (rn : String) (ts : List TurnInput) :
    ∀ st ls, (runTurns rn st ls ts).st.error = st.error ∧
      (runTurns rn st ls ts).st.is_running = st.is_running := by
  induction ts with
  | nil =>
    intro st ls
    by_cases hcap : ls.current_retries ≥ maxRetries
    · rw [runTurns_cap rn st ls [] hcap]
      exact ⟨rfl, rfl⟩
    · rw [runTurns_nil_live rn st ls hcap]
      exact ⟨rfl, rfl⟩
  | cons t ts ih =>
    intro st ls
    by_cases hcap : ls.current_retries ≥ maxRetries
    · rw [runTurns_cap rn st ls (t :: ts) hcap]
      exact ⟨rfl, rfl⟩
    · obtain ⟨s1, s2, _, _⟩ := stepTurn_preserves rn st ls t
      rcases hx : (stepTurn rn st ls t).exit with _ | r
      · rw [runTurns_cons_cont rn st ls t ts hcap hx]
        obtain ⟨i1, i2⟩ := ih (stepTurn rn st ls t).st (stepTurn rn st ls t).ls
        exact ⟨i1.trans s1, i2.trans s2⟩
      · rw [runTurns_cons_exit rn st ls t ts r hcap hx]
        exact ⟨s1, s2⟩

theorem runTurns_timeout_waiting (rn : String) (ts : List TurnInput) :
    ∀ st ls, (runTurns rn st ls ts).exit = some ExitReason.inputTimeout →
      (runTurns rn st ls ts).st.waiting_for_input = true := by
  induction ts with
  | nil =>
    intro st ls
    by_cases hcap : ls.current_retries ≥ maxRetries
    · rw [runTurns_cap rn st ls [] hcap]
      intro h
      exact absurd h (by simp)
    · rw [runTurns_nil_live rn st ls hcap]
      intro h
      exact absurd h (by simp)
  | cons t ts ih =>
    intro st ls
    by_cases hcap : ls.current_retries ≥ maxRetries
    · rw [runTurns_cap rn st ls (t :: ts) hcap]
      intro h
      exact absurd h (by simp)
    · rcases hx : (stepTurn rn st ls t).exit with _ | r
      · rw [runTurns_cons_cont rn st ls t ts hcap hx]
        exact ih (stepTurn rn st ls t).st (stepTurn rn st ls t).ls
      · rw [runTurns_cons_exit rn st ls t ts r hcap hx]
        exact stepTurn_timeout_waiting rn st ls t

theorem runTurns_waiting_iff (rn : String) (ts : List TurnInput) :
    ∀ st ls, st.waiting_for_input = false →
      ((runTurns rn st ls ts).st.waiting_for_input = true ↔
        (runTurns rn st ls ts).exit = some ExitReason.inputTimeout) := by
  induction ts with
  | nil =>
    intro st ls h
    by_cases hcap : ls.current_retries ≥ maxRetries
    · rw [runTurns_cap rn st ls [] hcap]
      simp [h]
    · rw [runTurns_nil_live rn st ls hcap]
      simp [h]
  | cons t ts ih =>
    intro st ls h
    by_cases hcap : ls.current_retries ≥ maxRetries
    · rw [runTurns_cap rn st ls (t :: ts) hcap]
      simp [h]
    · rcases hx : (stepTurn rn st ls t).exit with _ | r
      · have hw : (stepTurn rn st ls t).st.waiting_for_input = false := by
          have hiff := stepTurn_waiting_iff rn st ls t h
          rw [hx] at hiff
          simpa using hiff
        rw [runTurns_cons_cont rn st ls t ts hcap hx]
        exact ih (stepTurn rn st ls t).st (stepTurn rn st ls t).ls hw
      · rw [runTurns_cons_exit rn st ls t ts r hcap hx]
        exact stepTurn_waiting_iff rn st ls t h

theorem runSession_frame (stIn : SessionStatus) (topic rn : String) (turns : List TurnInput) :
    (runSession stIn topic rn turns).st.error = stIn.error ∧
    (runSession stIn topic rn turns).st.is_running = false ∧
    ∃ pre, (runSession stIn topic rn turns).effs =
      pre ++ [Effect.deleteAgent, Effect.deleteThread, Effect.clearRunning] := by
  obtain ⟨e1, _⟩ := runTurns_preserves rn turns (orchInit stIn topic) (initLoopState topic)
  refine ⟨?_, rfl, ?_⟩
  · show (runTurns rn (orchInit stIn topic) (initLoopState topic) turns).st.error = stIn.error
    exact e1
  · refine ⟨[Effect.createAgent, Effect.createThread] ++
      (runTurns rn (orchInit stIn topic) (initLoopState topic) turns).effs, ?_⟩
    show [Effect.createAgent, Effect.createThread] ++ _ ++
        [Effect.deleteAgent, Effect.deleteThread, Effect.clearRunning] = _
    simp

theorem runSession_timeout_waiting (stIn : SessionStatus) (topic rn : String)
    (turns : List TurnInput) :
    (runSession stIn topic rn turns).exit = some ExitReason.inputTimeout →
    (runSession stIn topic rn turns).st.waiting_for_input = true := by
  intro h
  exact runTurns_timeout_waiting rn turns (orchInit stIn topic) (initLoopState topic) h

theorem runSession_waiting_iff (stIn : SessionStatus) (topic rn : String)
    (turns : List TurnInput) (h : stIn.waiting_for_input = false) :
    ((runSession stIn topic rn turns).st.waiting_for_input = true ↔
      (runSession stIn topic rn turns).exit = some ExitReason.inputTimeout) :=
  runTurns_waiting_iff rn turns (orchInit stIn topic) (initLoopState topic) h

theorem runTurns_three_failures (rn : String) (st : SessionStatus) (ls : LoopState)
    (t1 t2 t3 : TurnInput) (h1 : RecoverableFailure t1) (h2 : RecoverableFailure t2)
    (h3 : RecoverableFailure t3) (hr : ls.current_retries = 0) :
    (runTurns rn st ls [t1, t2, t3]).exit = some ExitReason.maxRetries := by
  obtain ⟨c1, m1, ho1, hc1⟩ := h1
  obtain ⟨c2, m2, ho2, hc2⟩ := h2
  obtain ⟨c3, m3, ho3, hc3⟩ := h3
  have hx1 := (stepTurn_recoverable rn st ls t1 c1 m1 ho1 hc1).1
  have hr1 := stepTurn_retries_failed rn st ls t1 c1 m1 ho1
  rw [hr] at hr1
  have hcap1 : ¬ ls.current_retries ≥ maxRetries := by rw [hr]; decide
  rw [runTurns_cons_cont rn st ls t1 [t2, t3] hcap1 hx1]
  show (runTurns rn (stepTurn rn st ls t1).st (stepTurn rn st ls t1).ls [t2, t3]).exit =
    some ExitReason.maxRetries
  have hx2 := (stepTurn_recoverable rn (stepTurn rn st ls t1).st (stepTurn rn st ls t1).ls
    t2 c2 m2 ho2 hc2).1
  have hr2 := stepTurn_retries_failed rn (stepTurn rn st ls t1).st (stepTurn rn st ls t1).ls
    t2 c2 m2 ho2
  rw [hr1] at hr2
  have hcap2 : ¬ (stepTurn rn st ls t1).ls.current_retries ≥ maxRetries := by
    rw [hr1]; decide
  rw [runTurns_cons_cont rn (stepTurn rn st ls t1).st (stepTurn rn st ls t1).ls t2 [t3]
    hcap2 hx2]
  show (runTurns rn (stepTurn rn (stepTurn rn st ls t1).st (stepTurn rn st ls t1).ls t2).st
    (stepTurn rn (stepTurn rn st ls t1).st (stepTurn rn st ls t1).ls t2).ls [t3]).exit =
    some ExitReason.maxRetries
  have hx3 := (stepTurn_recoverable rn
    (stepTurn rn (stepTurn rn st ls t1).st (stepTurn rn st ls t1).ls t2).st
    (stepTurn rn (stepTurn rn st ls t1).st (stepTurn rn st ls t1).ls t2).ls
    t3 c3 m3 ho3 hc3).1
  have hr3 := stepTurn_retries_failed rn
    (stepTurn rn (stepTurn rn st ls t1).st (stepTurn rn st ls t1).ls t2).st
    (stepTurn rn (stepTurn rn st ls t1).st (stepTurn rn st ls t1).ls t2).ls
    t3 c3 m3 ho3
  rw [hr2] at hr3
  have hcap3 : ¬ (stepTurn rn (stepTurn rn st ls t1).st (stepTurn rn st ls t1).ls
      t2).ls.current_retries ≥ maxRetries := by
    rw [hr2]; decide
  rw [runTurns_cons_cont rn _ _ t3 [] hcap3 hx3]
  show (runTurns rn _ _ []).exit = some ExitReason.maxRetries
  rw [runTurns_cap rn _ _ [] (by rw [hr3]; decide)]

theorem runTurns_completed_last (rn : String) (st : SessionStatus) (ls : LoopState)
    (c : TurnInput) (hc : c.outcome = .completed)
    (hcap : ¬ ls.current_retries ≥ maxRetries) :
    (runTurns rn st ls [c]).exit ≠ some ExitReason.maxRetries := by
  rcases hx : (stepTurn rn st ls c).exit with _ | r
  · rw [runTurns_cons_cont rn st ls c [] hcap hx]
    show (runTurns rn (stepTurn rn st ls c).st (stepTurn rn st ls c).ls []).exit ≠ _
    rw [runTurns_nil_live rn _ _ (by rw [stepTurn_retries_completed rn st ls c hc]; decide)]
    simp
  · rw [runTurns_cons_exit rn st ls c [] r hcap hx]
    exact (stepTurn_preserves rn st ls c).2.2.2

theorem runTurns_few_failures (rn : String) (st : SessionStatus) (ls : LoopState)
    (fs : List TurnInput) (c : TurnInput) (hlen : fs.length ≤ 2)
    (hfs : ∀ t ∈ fs, RecoverableFailure t) (hc : c.outcome = .completed)
    (hr : ls.current_retries = 0) :
    (runTurns rn st ls (fs ++ [c])).exit ≠ some ExitReason.maxRetries := by
  rcases fs with _ | ⟨f, _ | ⟨g, _ | ⟨e, tl⟩⟩⟩
  · exact runTurns_completed_last rn st ls c hc (by rw [hr]; decide)
  · obtain ⟨c1, m1, ho1, hc1⟩ := hfs f (by simp)
    have hx1 := (stepTurn_recoverable rn st ls f c1 m1 ho1 hc1).1
    have hr1 := stepTurn_retries_failed rn st ls f c1 m1 ho1
    rw [hr] at hr1
    have hcap1 : ¬ ls.current_retries ≥ maxRetries := by rw [hr]; decide
    rw [List.cons_append, List.nil_append,
      runTurns_cons_cont rn st ls f [c] hcap1 hx1]
    show (runTurns rn (stepTurn rn st ls f).st (stepTurn rn st ls f).ls [c]).exit ≠ _
    exact runTurns_completed_last rn _ _ c hc (by rw [hr1]; decide)
  · obtain ⟨c1, m1, ho1, hc1⟩ := hfs f (by simp)
    obtain ⟨c2, m2, ho2, hc2⟩ := hfs g (by simp)
    have hx1 := (stepTurn_recoverable rn st ls f c1 m1 ho1 hc1).1
    have hr1 := stepTurn_retries_failed rn st ls f c1 m1 ho1
    rw [hr] at hr1
    have hcap1 : ¬ ls.current_retries ≥ maxRetries := by rw [hr]; decide
    rw [List.cons_append, List.cons_append, List.nil_append,
      runTurns_cons_cont rn st ls f (g :: [c]) hcap1 hx1]
    show (runTurns rn (stepTurn rn st ls f).st (stepTurn rn st ls f).ls (g :: [c])).exit ≠ _
    have hx2 := (stepTurn_recoverable rn (stepTurn rn st ls f).st (stepTurn rn st ls f).ls
      g c2 m2 ho2 hc2).1
    have hr2 := stepTurn_retries_failed rn (stepTurn rn st ls f).st (stepTurn rn st ls f).ls
      g c2 m2 ho2
    rw [hr1] at hr2
    have hcap2 : ¬ (stepTurn rn st ls f).ls.current_retries ≥ maxRetries := by
      rw [hr1]; decide
    rw [runTurns_cons_cont rn (stepTurn rn st ls f).st (stepTurn rn st ls f).ls g [c]
      hcap2 hx2]
    show (runTurns rn (stepTurn rn (stepTurn rn st ls f).st (stepTurn rn st ls f).ls g).st
      (stepTurn rn (stepTurn rn st ls f).st (stepTurn rn st ls f).ls g).ls [c]).exit ≠ _
    exact runTurns_completed_last rn _ _ c hc (by rw [hr2]; decide)
  · exact absurd hlen (by simp)

/-! ## Claim theorems -/

/-- C2: the Correction Engine classification is a pure function of the
(error code, error message) pair: under code `tool_server_error`, a
message containing "too many values to unpack" yields the
parameter-count corrective instruction; one containing "could not be
parsed" or "unmatched" yields the formatting instruction; any other
message yields the generic tool-usage instruction — each signalling a
retry (loop exit `none`, corrective message posted).  Code
`server_error` with the transient phrase yields a verbatim retry; every
other pair is non-recoverable and exits the loop. -/
theorem c2_classification :
    (∀ msg, strContainsSub msg "too many values to unpack" = true →
      classify_error (some "tool_server_error") msg =
        .retryWithCorrection paramCountCorrection) ∧
    (∀ msg, strContainsSub msg "too many values to unpack" = false →
      (strContainsSub msg "could not be parsed" = true ∨
        strContainsSub msg "unmatched" = true) →
      classify_error (some "tool_server_error") msg =
        .retryWithCorrection formattingCorrection) ∧
    (∀ msg, strContainsSub msg "too many values to unpack" = false →
      strContainsSub msg "could not be parsed" = false →
      strContainsSub msg "unmatched" = false →
      classify_error (some "tool_server_error") msg =
        .retryWithCorrection genericToolCorrection) ∧
    (∀ msg, strContainsSub msg transientPhrase = true →
      classify_error (some "server_error") msg = .retryVerbatim) ∧
    (∀ code msg, code ≠ some "tool_server_error" →
      ¬(code = some "server_error" ∧ strContainsSub msg transientPhrase = true) →
      classify_error code msg = .nonRecoverable) ∧
    (∀ rn st ls t code msg instr, t.outcome = .failed code msg →
      classify_error code msg = .retryWithCorrection instr →
      (stepTurn rn st ls t).exit = none ∧
      Effect.createMessage instr ∈ (stepTurn rn st ls t).effs) ∧
    (∀ rn st ls t code msg, t.outcome = .failed code msg →
      classify_error code msg = .retryVerbatim →
      (stepTurn rn st ls t).exit = none) ∧
    (∀ rn st ls t code msg, t.outcome = .failed code msg →
      classify_error code msg = .nonRecoverable →
      (stepTurn rn st ls t).exit = some ExitReason.nonRecoverable) := by
  refine ⟨?_, ?_, ?_, ?_, ?_, ?_, ?_, ?_⟩
  · intro msg h
    simp [classify_error, h]
  · intro msg h1 h2
    rcases h2 with h2 | h2 <;> simp [classify_error, h1, h2]
  · intro msg h1 h2 h3
    simp [classify_error, h1, h2, h3]
  · intro msg h
    simp [classify_error, h]
  · intro code msg h1 h2
    by_cases hsc : code = some "server_error"
    · have ht : strContainsSub msg transientPhrase = false := by
        rcases hx : strContainsSub msg transientPhrase
        · rfl
        · exact absurd ⟨hsc, hx⟩ h2
      simp [classify_error, h1, hsc, ht]
    · simp [classify_error, h1, hsc]
  · intro rn st ls t code msg instr ho hcl
    rw [stepTurn_eq_failed_corr rn st ls t code msg instr ho hcl]
    exact ⟨rfl, by simp⟩
  · intro rn st ls t code msg ho hcl
    rw [stepTurn_eq_failed_verbatim rn st ls t code msg ho hcl]
  · intro rn st ls t code msg ho hcl
    exact stepTurn_fatal rn st ls t code msg ho hcl

/-- Witness for C2 at concrete error pairs and turns. -/
theorem c2_classification_witness :
    classify_error (some "tool_server_error") "too many values to unpack (expected 2)" =
      .retryWithCorrection paramCountCorrection ∧
    classify_error (some "tool_server_error") "the tool arguments could not be parsed" =
      .retryWithCorrection formattingCorrection ∧
    classify_error (some "tool_server_error") "mystery failure" =
      .retryWithCorrection genericToolCorrection ∧
    classify_error (some "server_error") "Sorry, something went wrong" = .retryVerbatim ∧
    classify_error (some "rate_limit_exceeded") "Rate limit is exceeded." = .nonRecoverable ∧
    (stepTurn "r" resetStatus (initLoopState "t") transientFailTurn).exit = none ∧
    (stepTurn "r" resetStatus (initLoopState "t") fatalFailTurn).exit =
      some ExitReason.nonRecoverable :=
  ⟨c2_classification.1 _ (by decide),
   c2_classification.2.1 _ (by decide) (Or.inl (by decide)),
   c2_classification.2.2.1 _ (by decide) (by decide) (by decide),
   c2_classification.2.2.2.1 _ (by decide),
   c2_classification.2.2.2.2.1 _ _ (by decide) (by decide),
   c2_classification.2.2.2.2.2.2.1 "r" resetStatus (initLoopState "t") transientFailTurn
     (some "server_error") "Sorry, something went wrong" rfl (by decide),
   c2_classification.2.2.2.2.2.2.2 "r" resetStatus (initLoopState "t") fatalFailTurn
     (some "rate_limit_exceeded") "Rate limit is exceeded." rfl (by decide)⟩

/-- C1 counterexample: in the exact three-consecutive-recognized-failure
scenario, the loop does exit through the retry cap, but the Session
State `error` field is left at `none` — the failure is never surfaced
there (the `break` at source line 241 sets no error). -/
theorem c1_counterexample :
    (runSession resetStatus "ai alignment" "research_summary_1.md"
      [transientFailTurn, transientFailTurn, transientFailTurn]).exit =
      some ExitReason.maxRetries ∧
    (runSession resetStatus "ai alignment" "research_summary_1.md"
      [transientFailTurn, transientFailTurn, transientFailTurn]).st.error = none := by
  decide

/-- C1 (amended): for every session in which 3 consecutive runs fail
with recognized, auto-retried errors and no run completes in between,
the orchestrator exits its loop through the 3-strike retry cap, deletion
of the created remote agent and thread is still attempted before
`is_running` is cleared, and the `error` field is left unchanged (not
set to the failure). -/
theorem c1_three_strikes_terminal (stIn : SessionStatus) (topic rn : String)
    (t1 t2 t3 : TurnInput) (h1 : RecoverableFailure t1) (h2 : RecoverableFailure t2)
    (h3 : RecoverableFailure t3) :
    (runSession stIn topic rn [t1, t2, t3]).exit = some ExitReason.maxRetries ∧
    (runSession stIn topic rn [t1, t2, t3]).st.error = stIn.error ∧
    (runSession stIn topic rn [t1, t2, t3]).st.is_running = false ∧
    ∃ pre, (runSession stIn topic rn [t1, t2, t3]).effs =
      pre ++ [Effect.deleteAgent, Effect.deleteThread, Effect.clearRunning] := by
  obtain ⟨f1, f2, f3⟩ := runSession_frame stIn topic rn [t1, t2, t3]
  refine ⟨?_, f1, f2, f3⟩
  exact runTurns_three_failures rn (orchInit stIn topic) (initLoopState topic) t1 t2 t3
    h1 h2 h3 rfl

/-- Witness for the amended C1 at a concrete 3-failure session. -/
theorem c1_three_strikes_terminal_witness :
    (runSession resetStatus "w" "r" [toolFailTurn, transientFailTurn, toolFailTurn]).exit =
      some ExitReason.maxRetries ∧
    (runSession resetStatus "w" "r" [toolFailTurn, transientFailTurn, toolFailTurn]).st.error =
      none := by
  obtain ⟨h1, h2, _, _⟩ := c1_three_strikes_terminal resetStatus "w" "r"
    toolFailTurn transientFailTurn toolFailTurn
    ⟨some "tool_server_error", "too many values to unpack (expected 2)", rfl, by decide⟩
    ⟨some "server_error", "Sorry, something went wrong", rfl, by decide⟩
    ⟨some "tool_server_error", "too many values to unpack (expected 2)", rfl, by decide⟩
  exact ⟨h1, h2⟩

/-- C4: the retry counter is reset to zero exactly on a `completed` run
(`failed` increments it, any other status leaves it unchanged), so for
at most 2 recognized failures followed by a completion the loop never
exits through the 3-strike cap. -/
theorem c4_retry_counter_reset :
    (∀ rn st ls t, t.outcome = .completed →
      (stepTurn rn st ls t).ls.current_retries = 0) ∧
    (∀ rn st ls t code msg, t.outcome = .failed code msg →
      (stepTurn rn st ls t).ls.current_retries = ls.current_retries + 1) ∧
    (∀ rn st ls t s, t.outcome = .otherStatus s →
      (stepTurn rn st ls t).ls.current_retries = ls.current_retries) ∧
    (∀ rn st ls fs c, fs.length ≤ 2 → (∀ t ∈ fs, RecoverableFailure t) →
      c.outcome = .completed → ls.current_retries = 0 →
      (runTurns rn st ls (fs ++ [c])).exit ≠ some ExitReason.maxRetries) :=
  ⟨fun rn st ls t h => stepTurn_retries_completed rn st ls t h,
   fun rn st ls t code msg h => stepTurn_retries_failed rn st ls t code msg h,
   fun rn st ls t s h => stepTurn_retries_other rn st ls t s h,
   fun rn st ls fs c h1 h2 h3 h4 => runTurns_few_failures rn st ls fs c h1 h2 h3 h4⟩

/-- Witness for C4: two recognized failures then a completion never hit
the cap; a completed turn resets the counter. -/
theorem c4_retry_counter_reset_witness :
    (stepTurn "r" resetStatus (initLoopState "t") questionTurn).ls.current_retries = 0 ∧
    (stepTurn "r" resetStatus (initLoopState "t") toolFailTurn).ls.current_retries = 1 ∧
    (runTurns "r" resetStatus (initLoopState "t")
      ([toolFailTurn, transientFailTurn] ++ [questionTurn])).exit ≠
      some ExitReason.maxRetries := by
  refine ⟨c4_retry_counter_reset.1 "r" resetStatus (initLoopState "t") questionTurn rfl,
    ?_, ?_⟩
  · have h := c4_retry_counter_reset.2.1 "r" resetStatus (initLoopState "t") toolFailTurn
      (some "tool_server_error") "too many values to unpack (expected 2)" rfl
    exact h
  · refine c4_retry_counter_reset.2.2.2 "r" resetStatus (initLoopState "t")
      [toolFailTurn, transientFailTurn] questionTurn (by decide) ?_ rfl rfl
    intro t ht
    simp only [List.mem_cons, List.not_mem_nil, or_false] at ht
    rcases ht with rfl | rfl
    · exact ⟨some "tool_server_error", "too many values to unpack (expected 2)", rfl, by decide⟩
    · exact ⟨some "server_error", "Sorry, something went wrong", rfl, by decide⟩

/-- C5 counterexample: a session ending by the 300-second input timeout
leaves the Session State `error` field at `none` — the timeout is not
surfaced as an error condition (the `break` at source line 370 sets no
error). -/
theorem c5_counterexample :
    (runSession resetStatus "solar panels" "research_summary_2.md" [questionTurn]).exit =
      some ExitReason.inputTimeout ∧
    (runSession resetStatus "solar panels" "research_summary_2.md"
      [questionTurn]).st.error = none := by
  decide

/-- C5 (amended): if the handoff wait times out, the session terminates
(loop exit `inputTimeout`), `is_running` becomes false and cleanup of
the created agent and thread is attempted; but the timeout is NOT
surfaced in the `error` field, which is left unchanged, and
`waiting_for_input` remains true. -/
theorem c5_timeout_terminal (stIn : SessionStatus) (topic rn : String)
    (turns : List TurnInput)
    (h : (runSession stIn topic rn turns).exit = some ExitReason.inputTimeout) :
    (runSession stIn topic rn turns).st.is_running = false ∧
    (runSession stIn topic rn turns).st.error = stIn.error ∧
    (runSession stIn topic rn turns).st.waiting_for_input = true ∧
    ∃ pre, (runSession stIn topic rn turns).effs =
      pre ++ [Effect.deleteAgent, Effect.deleteThread, Effect.clearRunning] := by
  obtain ⟨f1, f2, f3⟩ := runSession_frame stIn topic rn turns
  exact ⟨f2, f1, runSession_timeout_waiting stIn topic rn turns h, f3⟩

/-- Witness for the amended C5 at a concrete timed-out session. -/
theorem c5_timeout_terminal_witness :
    (runSession resetStatus "s" "r" [questionTurn]).st.is_running = false ∧
    (runSession resetStatus "s" "r" [questionTurn]).st.error = none ∧
    (runSession resetStatus "s" "r" [questionTurn]).st.waiting_for_input = true := by
  obtain ⟨h1, h2, h3, _⟩ := c5_timeout_terminal resetStatus "s" "r" [questionTurn] (by decide)
  exact ⟨h1, h2, h3⟩

/-- C9 counterexample: a session that ends through the input timeout is
a terminal state (the orchestrator task has ended, `is_running` is
false) in which `waiting_for_input` is still true — it is never cleared
on the timeout path. -/
theorem c9_counterexample :
    (runSession resetStatus "history of computing" "research_summary_3.md"
      [answeredTurn, questionTurn]).exit = some ExitReason.inputTimeout ∧
    (runSession resetStatus "history of computing" "research_summary_3.md"
      [answeredTurn, questionTurn]).st.is_running = false ∧
    (runSession resetStatus "history of computing" "research_summary_3.md"
      [answeredTurn, questionTurn]).st.waiting_for_input = true := by
  decide

/-- C9 (amended): starting from a status whose `waiting_for_input` is
false, the final state of a session has `waiting_for_input = true`
exactly when the session ended through the 300-second input timeout; on
every other exit path the flag is false in the terminal state. -/
theorem c9_waiting_flag (stIn : SessionStatus) (topic rn : String)
    (turns : List TurnInput) (h : stIn.waiting_for_input = false) :
    ((runSession stIn topic rn turns).st.waiting_for_input = true ↔
      (runSession stIn topic rn turns).exit = some ExitReason.inputTimeout) :=
  runSession_waiting_iff stIn topic rn turns h

/-- Witness for the amended C9: a session ending without timeout has the
flag false. -/
theorem c9_waiting_flag_witness :
    ((runSession resetStatus "h" "r" [answeredTurn]).st.waiting_for_input = true ↔
      (runSession resetStatus "h" "r" [answeredTurn]).exit = some ExitReason.inputTimeout) ∧
    (runSession resetStatus "h" "r" [answeredTurn]).st.waiting_for_input = false :=
  ⟨c9_waiting_flag resetStatus "h" "r" [answeredTurn] rfl, by decide⟩

/-- C7: `POST /api/start_research` while a session is running returns
400 with an error body and leaves every Session State field unchanged
and performs no side effect; likewise when the stripped topic is
empty. -/
theorem c7_start_research_rejections :
    (∀ st topic, st.is_running = true →
      (start_research st topic).resp.code = 400 ∧
      (start_research st topic).resp.errorMsg.isSome = true ∧
      (start_research st topic).st = st ∧
      (start_research st topic).effs = []) ∧
    (∀ st topic, st.is_running = false → pyStrip (topic.getD "") = "" →
      (start_research st topic).resp.code = 400 ∧
      (start_research st topic).resp.errorMsg.isSome = true ∧
      (start_research st topic).st = st ∧
      (start_research st topic).effs = []) := by
  constructor
  · intro st topic h
    simp [start_research, h]
  · intro st topic h1 h2
    simp [start_research, h1, h2]

/-- Witness for C7: concrete busy-session and blank-topic requests. -/
theorem c7_start_research_rejections_witness :
    (start_research runningStatus (some "new topic")).resp.code = 400 ∧
    (start_research runningStatus (some "new topic")).st = runningStatus ∧
    (start_research resetStatus (some "   ")).resp.code = 400 ∧
    (start_research resetStatus (some "   ")).st = resetStatus := by
  obtain ⟨h1, _, h3, _⟩ := c7_start_research_rejections.1 runningStatus (some "new topic") rfl
  obtain ⟨g1, _, g3, _⟩ := c7_start_research_rejections.2 resetStatus (some "   ") rfl (by decide)
  exact ⟨h1, h3, g1, g3⟩

/-- C8 counterexample: an accepted `/api/start_research` request returns
success while leaving `is_running = false` — the handler resets the
status with `is_running: False` and never sets it true itself (only the
spawned orchestrator does, later), contradicting the claim that
`is_running` is true once the handler returns success. -/
theorem c8_counterexample :
    (start_research resetStatus (some "quantum computing")).resp.success = true ∧
    (start_research resetStatus (some "quantum computing")).st.is_running = false := by
  decide

/-- C8 (amended): an accepted request implies no session was running; the
handler replaces the whole status by the reset value — whose
`is_running` is false, not true — and then enqueues the stripped topic
and spawns the orchestrator, in that order; `is_running` becomes true
only when the spawned orchestrator itself starts (its init sets it). -/
theorem c8_reset_before_spawn (st : SessionStatus) (topic : Option String)
    (h : (start_research st topic).resp.success = true) :
    st.is_running = false ∧
    (start_research st topic).st = resetStatus ∧
    (start_research st topic).st.is_running = false ∧
    (start_research st topic).effs =
      [ApiEffect.enqueueTopic (pyStrip (topic.getD "")), ApiEffect.spawnOrchestrator] ∧
    ∀ stX t, (orchInit stX t).is_running = true := by
  by_cases hr : st.is_running = true
  · exfalso
    simp [start_research, hr] at h
  · by_cases ht : pyStrip (topic.getD "") = ""
    · exfalso
      simp [start_research, hr, ht] at h
    · have hrf : st.is_running = false := by
        cases hb : st.is_running
        · rfl
        · exact absurd hb hr
      simp [start_research, hr, ht, orchInit, hrf, resetStatus]

/-- Witness for the amended C8 at a concrete accepted request. -/
theorem c8_reset_before_spawn_witness :
    resetStatus.is_running = false ∧
    (start_research resetStatus (some "llm safety")).st = resetStatus ∧
    (start_research resetStatus (some "llm safety")).st.is_running = false := by
  obtain ⟨h1, h2, h3, _, _⟩ := c8_reset_before_spawn resetStatus (some "llm safety") (by decide)
  exact ⟨h1, h2, h3⟩

/-- C10: after every auto-retried run failure (corrective or verbatim),
the loop continues with the stored assistant response text cleared and
the pending outgoing content cleared, so the run created on the retry is
never forced to include the research tool definitions — even if the
assistant message preceding the failure contained the sentinel. -/
theorem c10_retry_clears_sentinel :
    ∀ rn st ls t code msg, t.outcome = .failed code msg →
      classify_error code msg ≠ .nonRecoverable →
      (stepTurn rn st ls t).exit = none ∧
      (stepTurn rn st ls t).ls.agent_response_text = "" ∧
      (stepTurn rn st ls t).ls.user_message_content = none ∧
      ∀ t', forcedFlags (stepTurn rn (stepTurn rn st ls t).st
        (stepTurn rn st ls t).ls t').effs = [false] := by
  intro rn st ls t code msg ho hcl
  obtain ⟨h1, h2, h3⟩ := stepTurn_recoverable rn st ls t code msg ho hcl
  refine ⟨h1, h2, h3, ?_⟩
  intro t'
  have h4 := (stepTurn_preserves rn (stepTurn rn st ls t).st (stepTurn rn st ls t).ls t').2.2.1
  rw [h2] at h4
  have h5 : strContainsSub "" sentinelMarker = false := by decide
  rw [h4, h5]

/-- Witness for C10: a failed tool run while the sentinel was present in
the assistant text. -/
theorem c10_retry_clears_sentinel_witness :
    (stepTurn "r" resetStatus sentinelLoopState toolFailTurn).exit = none ∧
    (stepTurn "r" resetStatus sentinelLoopState toolFailTurn).ls.agent_response_text = "" ∧
    (stepTurn "r" resetStatus sentinelLoopState toolFailTurn).ls.user_message_content = none ∧
    forcedFlags (stepTurn "r" (stepTurn "r" resetStatus sentinelLoopState toolFailTurn).st
      (stepTurn "r" resetStatus sentinelLoopState toolFailTurn).ls questionTurn).effs =
      [false] := by
  obtain ⟨h1, h2, h3, h4⟩ := c10_retry_clears_sentinel "r" resetStatus sentinelLoopState
    toolFailTurn (some "tool_server_error") "too many values to unpack (expected 2)"
    rfl (by decide)
  exact ⟨h1, h2, h3, h4 questionTurn⟩

/-- C3: every run is created with the forced-tools flag equal to the
sentinel test on the current assistant text; on a turn whose refetched
message carries no citations, if the text contains the sentinel the
orchestrator leaves the Session State untouched (no `waiting_for_input`,
no blocking wait in the effect trace), continues, and the next run it
creates is forced to include the research tool definitions; if the
sentinel is absent it blocks for human input, setting
`waiting_for_input = true` until a reply arrives (true at the timeout
exit, false again once a reply is recorded). -/
theorem c3_sentinel_detection :
    (∀ rn st ls t, forcedFlags (stepTurn rn st ls t).effs =
      [strContainsSub ls.agent_response_text sentinelMarker]) ∧
    (∀ rn st ls fm w, hasCitations fm = false →
      strContainsSub (refreshLs ls fm).agent_response_text sentinelMarker = true →
      (afterEval rn st ls fm w).st = st ∧
      Effect.waitForInput ∉ (afterEval rn st ls fm w).effs ∧
      (afterEval rn st ls fm w).exit = none ∧
      ∀ t', forcedFlags (stepTurn rn (afterEval rn st ls fm w).st
        (afterEval rn st ls fm w).ls t').effs = [true]) ∧
    (∀ rn st ls fm w, hasCitations fm = false →
      strContainsSub (refreshLs ls fm).agent_response_text sentinelMarker = false →
      Effect.waitForInput ∈ (afterEval rn st ls fm w).effs ∧
      (w = .timeout → (afterEval rn st ls fm w).st.waiting_for_input = true ∧
        (afterEval rn st ls fm w).exit = some ExitReason.inputTimeout) ∧
      (∀ m, w = .received m → (afterEval rn st ls fm w).st.waiting_for_input = false)) := by
  have hred : ∀ (rn : String) (st : SessionStatus) (ls : LoopState) (fm : Option ThreadMsg)
      (w : WaitResult), hasCitations fm = false →
      afterEval rn st ls fm w = contDecision st (refreshLs ls fm) w := by
    intro rn st ls fm w hcit
    cases fm with
    | none => exact afterEval_none rn st ls w
    | some m =>
      refine afterEval_some_nocite rn st ls m w ?_
      rcases hmc : m.citations with _ | ⟨a, l⟩
      · rfl
      · rw [hasCitations] at hcit
        simp [hmc] at hcit
  refine ⟨fun rn st ls t => (stepTurn_preserves rn st ls t).2.2.1, ?_, ?_⟩
  · intro rn st ls fm w hcit hs
    rw [hred rn st ls fm w hcit]
    have hcd : contDecision st (refreshLs ls fm) w =
        { st := st, ls := { refreshLs ls fm with user_message_content := none },
          effs := [], exit := none } := by
      simp [contDecision, hs]
    rw [hcd]
    refine ⟨rfl, by simp, rfl, ?_⟩
    intro t'
    have h4 := (stepTurn_preserves rn st
      { refreshLs ls fm with user_message_content := none } t').2.2.1
    rw [h4]
    show [strContainsSub (refreshLs ls fm).agent_response_text sentinelMarker] = [true]
    rw [hs]
  · intro rn st ls fm w hcit hs
    rw [hred rn st ls fm w hcit]
    rcases w with m | _
    · by_cases he : pyLower m = "exit" ∨ pyLower m = "quit" <;>
        simp [contDecision, hs, he]
    · simp [contDecision, hs]

/-- Witness for C3: a sentinel-bearing text skips the wait and forces
the next run; a sentinel-free text blocks and sets the flag. -/
theorem c3_sentinel_detection_witness :
    forcedFlags (stepTurn "r" resetStatus sentinelLoopState questionTurn).effs = [true] ∧
    (afterEval "r" resetStatus sentinelLoopState none WaitResult.timeout).exit = none ∧
    (afterEval "r" resetStatus sentinelLoopState none WaitResult.timeout).st = resetStatus ∧
    Effect.waitForInput ∈
      (afterEval "r" resetStatus (initLoopState "t") none WaitResult.timeout).effs ∧
    (afterEval "r" resetStatus (initLoopState "t") none
      WaitResult.timeout).st.waiting_for_input = true := by
  refine ⟨?_, ?_, ?_, ?_, ?_⟩
  · have h := c3_sentinel_detection.1 "r" resetStatus sentinelLoopState questionTurn
    rw [h]
    decide
  · exact (c3_sentinel_detection.2.1 "r" resetStatus sentinelLoopState none
      WaitResult.timeout rfl (by decide)).2.2.1
  · exact (c3_sentinel_detection.2.1 "r" resetStatus sentinelLoopState none
      WaitResult.timeout rfl (by decide)).1
  · exact (c3_sentinel_detection.2.2 "r" resetStatus (initLoopState "t") none
      WaitResult.timeout rfl (by decide)).1
  · exact ((c3_sentinel_detection.2.2 "r" resetStatus (initLoopState "t") none
      WaitResult.timeout rfl (by decide)).2.1 rfl).1

theorem emittedRefs_snd (cs : List MsgCite) :
    ∀ seen, (emittedRefs cs seen).map Prod.snd =
      firstSeenUniq ((cs.map MsgCite.url).filter fun u => u ∉ seen) := by
  induction cs with
  | nil => intro seen; simp [emittedRefs, firstSeenUniq]
  | cons c cs ih =>
    intro seen
    by_cases hm : c.url ∈ seen
    · rw [show emittedRefs (c :: cs) seen = emittedRefs cs seen by simp [emittedRefs, hm]]
      rw [ih seen]
      congr 1
      simp [hm]
    · rw [show emittedRefs (c :: cs) seen =
          (citeTitle c, c.url) :: emittedRefs cs (c.url :: seen) by simp [emittedRefs, hm]]
      rw [List.map_cons, ih (c.url :: seen)]
      have hfil : ((c :: cs).map MsgCite.url).filter (fun u => u ∉ seen) =
          c.url :: ((cs.map MsgCite.url).filter fun u => u ∉ seen) := by
        simp [hm]
      rw [hfil]
      rw [show firstSeenUniq (c.url :: ((cs.map MsgCite.url).filter fun u => u ∉ seen)) =
          c.url :: firstSeenUniq (((cs.map MsgCite.url).filter fun u => u ∉ seen).filter
            fun v => v ≠ c.url) from by rw [firstSeenUniq]]
      congr 2
      rw [List.filter_filter]
      refine (List.filter_congr ?_).symm
      intro a _
      by_cases h1 : a = c.url <;> by_cases h2 : a ∈ seen <;> simp [h1, h2]

theorem firstSeenUniq_mem (l : List String) : ∀ u, u ∈ firstSeenUniq l ↔ u ∈ l := by
  induction l using firstSeenUniq.induct with
  | case1 => intro u; simp [firstSeenUniq]
  | case2 v vs ih =>
    intro u
    rw [show firstSeenUniq (v :: vs) =
      v :: firstSeenUniq (vs.filter fun x => x ≠ v) from by rw [firstSeenUniq]]
    by_cases h : u = v
    · simp [h]
    · simp only [List.mem_cons, ih u, List.mem_filter, h, or_false, false_or]
      simp [h]

theorem firstSeenUniq_nodup (l : List String) : (firstSeenUniq l).Nodup := by
  induction l using firstSeenUniq.induct with
  | case1 => simp [firstSeenUniq]
  | case2 v vs ih =>
    rw [show firstSeenUniq (v :: vs) =
      v :: firstSeenUniq (vs.filter fun x => x ≠ v) from by rw [firstSeenUniq]]
    refine List.nodup_cons.mpr ⟨?_, ih⟩
    intro hv
    rw [firstSeenUniq_mem, List.mem_filter] at hv
    simp at hv

/-- C6: for every finalized message the file content of the Report Writer is
the stripped text segments joined by blank lines, followed — exactly
when at least one citation exists — by a `## References` section; the
listed reference URLs are the citation URLs deduplicated keeping first
occurrences (each distinct URL exactly once, in first-seen order, every
cited URL present), and on the citations
`[("A","u1"),("B","u1"),("C","u2")]` the file lists exactly `u1` titled
`A` then `u2` titled `C`. -/
theorem c6_report_writer :
    (∀ m : ResearchMsg, create_research_summary m =
      String.intercalate "\n\n" (m.texts.map pyStrip) ++
        (if m.citations = [] then ""
         else "\n\n## References\n" ++ citeLines m.citations [])) ∧
    (∀ cs : List MsgCite, (emittedRefs cs []).map Prod.snd =
      firstSeenUniq (cs.map MsgCite.url)) ∧
    (∀ cs : List MsgCite, ((emittedRefs cs []).map Prod.snd).Nodup) ∧
    (∀ cs : List MsgCite, ∀ u,
      u ∈ (emittedRefs cs []).map Prod.snd ↔ u ∈ cs.map MsgCite.url) ∧
    create_research_summary ⟨["T"], [⟨some "A", "u1"⟩, ⟨some "B", "u1"⟩, ⟨some "C", "u2"⟩]⟩ =
      "T\n\n## References\n- [A](u1)\n- [C](u2)\n" := by
  have hsnd : ∀ cs : List MsgCite, (emittedRefs cs []).map Prod.snd =
      firstSeenUniq (cs.map MsgCite.url) := by
    intro cs
    rw [emittedRefs_snd cs []]
    congr 1
    simp
  refine ⟨?_, hsnd, ?_, ?_, by decide⟩
  · intro m
    by_cases hc : m.citations = [] <;> simp [create_research_summary, hc]
  · intro cs
    rw [hsnd cs]
    exact firstSeenUniq_nodup (cs.map MsgCite.url)
  · intro cs u
    rw [hsnd cs]
    exact firstSeenUniq_mem (cs.map MsgCite.url) u
